import Mathlib

/-!
Verification of the newsletter-generation pipeline (`src/main.py`,
`src/web_search_tool.py`) against its specification.

The Python code is shallowly embedded: Python strings are `String`,
optional values are `Option`, dictionaries with a fixed key set are
structures, a remote call that may raise is an `Except String` value
supplied as an oracle argument, and `try/except` is a `match` on that
value.  Where a count of external calls matters, the embedded function
also returns the count.
-/

/-! ## Python string primitives -/

/-- Python slicing `s[:n]`: the first `n` characters of `s`. -/
def pySlice (s : String) (n : Nat) : String :=
  ⟨s.data.take n⟩

/-- Python truthiness of an optional string: `None` and `""` are falsy. -/
def pyTruthy : Option String → Bool
  | none => false
  | some s => !(s == "")

/-- Python `f"{x}"` applied to `str` or `None`: `None` renders as "None". -/
def pyStr : Option String → String
  | some s => s
  | none => "None"

/-! ## Embedding of src/web_search_tool.py -/

/-- Schema for a single search result (`WebSearchResult`, lines 12–17). -/
structure WebSearchResult where
  title : String
  url : String
  published_date : Option String := none
  content_preview : Option String := none
  deriving Repr, DecidableEq

/-- Schema for search tool inputs (`WebSearchInputSchema`, lines 20–25),
with the source's default field values. -/
structure WebSearchInputSchema where
  search_query : String
  days_ago : Nat := 7
  max_results : Nat := 5
  max_preview_chars : Nat := 500
  deriving Repr, DecidableEq

/-- Schema for search tool outputs (`WebSearchOutputSchema`, lines 28–34).
A dictionary key that is absent and a key set to `None` both embed as
`none` (the source only ever reads these keys with `.get`). -/
structure WebSearchOutputSchema where
  success : Bool := true
  error_message : Option String := none
  results : Option (List WebSearchResult) := none
  search_query : Option String := none
  total_results_found : Option Nat := none
  deriving Repr, DecidableEq

/-- A raw result object of the remote `exa.search_and_contents` call, with
the four attributes the tool reads.  `text := none` stands for an object
with no `text` attribute or `text = None`. -/
structure ExaResult where
  title : String
  url : String
  published_date : Option String := none
  text : Option String := none
  deriving Repr, DecidableEq

/-- The single remote `exa.search_and_contents` attempt: the provider's
result list, or the message of the exception the attempt raised. -/
abbrev ExaCall := Except String (List ExaResult)

/-- The marker appended to truncated previews (line 102). -/
def ellipsisMarker : String := "..."

/-- Line 102: `result.text[:max_chars] + "..." if len(result.text) > max_chars
else result.text`. -/
def truncatePreview (text : String) (maxChars : Nat) : String :=
  if maxChars < text.length then pySlice text maxChars ++ ellipsisMarker else text

/-- Lines 99–102: `content_preview` is `None` unless the raw result has a
truthy `text` attribute, in which case it is the possibly-truncated text. -/
def makeContentPreview (text : Option String) (maxChars : Nat) : Option String :=
  match text with
  | some t => if t = "" then none else some (truncatePreview t maxChars)
  | none => none

/-- Lines 104–110: the formatted dictionary built for one raw result. -/
def formatExaResult (maxChars : Nat) (r : ExaResult) : WebSearchResult :=
  { title := r.title
    url := r.url
    published_date := r.published_date
    content_preview := makeContentPreview r.text maxChars }

/-- Line 70: `if not self.api_key:` — a missing or empty key is falsy. -/
def apiKeyMissing : Option String → Bool
  | none => true
  | some k => k == ""

/-- The error message returned when no API key is available (lines 71–75). -/
def noApiKeyMessage : String :=
  "No Exa API key available. Please provide an API key or set the EXA_API_KEY environment variable."

/-- Embedding of `WebSearchTool.run` (lines 58–131), instrumented with the
number of remote search attempts the call makes.  `remote` is the outcome
of the one `exa.search_and_contents` call the body can make; an
`Except.error` is the exception the `try` block catches (lines 123–131),
so the embedded function is total: no fault propagates to the caller. -/
def WebSearchTool.runT (apiKey : Option String) (remote : ExaCall)
    (input : WebSearchInputSchema) : WebSearchOutputSchema × Nat :=
  if apiKeyMissing apiKey then
    ({ success := false
       error_message := some noApiKeyMessage
       results := none }, 0)
  else
    match remote with
    | Except.error e =>
        ({ success := false
           error_message := some ("Error performing search: " ++ e)
           results := none }, 1)
    | Except.ok rs =>
        let formatted := rs.map (formatExaResult input.max_preview_chars)
        ({ success := true
           error_message := none
           results := some formatted
           search_query := some input.search_query
           total_results_found := some formatted.length }, 1)

/-- `WebSearchTool.run`: the dictionary the call returns. -/
def WebSearchTool.run (apiKey : Option String) (remote : ExaCall)
    (input : WebSearchInputSchema) : WebSearchOutputSchema :=
  (WebSearchTool.runT apiKey remote input).1

/-- The invariant every `WebSearchTool.run` return value satisfies: a
success carries no error message, a results list, and a matching count; a
failure carries a non-empty error message and no results. -/
def outputWellFormed (o : WebSearchOutputSchema) : Prop :=
  if o.success then
    o.error_message = none ∧
    (∃ rs, o.results = some rs ∧ o.total_results_found = some rs.length)
  else
    o.results = none ∧ ∃ m, o.error_message = some m ∧ m ≠ ""

/-! ## Embedding of src/main.py -/

/-- The outcome of one `self.web_search_tool.run(search_input)` call as
`manual_search` sees it: the returned dictionary, or the message of an
exception the call raised (caught at lines 180–182). -/
abbrev ToolCall := WebSearchInputSchema → Except String WebSearchOutputSchema

/-- `NewsletterAgents.manual_search` (lines 163–182): one tool call with
`max_results = 5`; a falsy `success` or a raised exception is replaced by
a dictionary holding only `success=False` and the error message. -/
def manual_search (toolRun : ToolCall) (query : String) (days_ago : Nat) :
    WebSearchOutputSchema :=
  let search_input : WebSearchInputSchema :=
    { search_query := query, days_ago := days_ago, max_results := 5 }
  match toolRun search_input with
  | Except.ok results =>
      if results.success then results
      else
        { success := false
          error_message := some (results.error_message.getD "Unknown error") }
  | Except.error e =>
      { success := false, error_message := some e }

/-- One rendered result block of the merged search context
(lines 197–202 and 207–212): index, title, url, publish date, and — when
the preview is truthy — its first 300 characters. -/
def renderResultBlock (i : Nat) (result : WebSearchResult) : String :=
  "[Result " ++ toString (i + 1) ++ "]\n" ++
  "Title: " ++ result.title ++ "\n" ++
  "URL: " ++ result.url ++ "\n" ++
  "Published: " ++ pyStr result.published_date ++ "\n" ++
  (if pyTruthy result.content_preview then
    "Preview: " ++ pySlice (result.content_preview.getD "") 300 ++ "...\n\n"
  else "")

/-- The rendered blocks of one search response, in result order
(the `for i, result in enumerate(...)` loops). -/
def resultBlocks (resp : WebSearchOutputSchema) : List String :=
  (resp.results.getD []).enum.map (fun p => renderResultBlock p.1 p.2)

/-- The text one successful search response contributes to the merged
context: its header line and its result blocks (lines 195–202, 205–212). -/
def renderSearchResponse (resp : WebSearchOutputSchema) : String :=
  "Search for '" ++ pyStr resp.search_query ++ "' found " ++
    toString (resp.results.getD []).length ++ " results:\n\n" ++
  String.join (resultBlocks resp)

/-- The merged supplementary-context block `search_summary`
(lines 193–212): each of the two responses contributes its rendering only
when its `success` field is truthy. -/
def buildSearchSummary (primary secondary : WebSearchOutputSchema) : String :=
  let s0 := "SEARCH RESULTS:\n\n"
  let s1 := if primary.success then s0 ++ renderSearchResponse primary else s0
  if secondary.success then s1 ++ "\n" ++ renderSearchResponse secondary else s1

/-- The stage-1 (researcher) user message (lines 216–222). -/
def researchMessage (user_input search_summary : String) : String :=
  "Research task: Analyze these search results about " ++ user_input ++ ".\n\n" ++
  search_summary ++ "\n\n" ++
  "Organize these findings into clear research with reliable sources. " ++
  "Include the significance of each development and its broader industry impact. " ++
  "If you need more specific information, use the search_and_contents tool with a specific query."

/-- The stage-2 (insights) user message (lines 242–247): note the
`search_summary[:1000]` slice. -/
def insightsMessage (user_input research_content search_summary : String) : String :=
  "Add insights to the following research about " ++ user_input ++ ".\n\n" ++
  "Research to analyze:\n" ++ research_content ++ "\n\n" ++
  "Also consider these additional search results:\n" ++
    pySlice search_summary 1000 ++ "...\n\n" ++
  "If you need any specific information, use the search_and_contents tool with a specific query."

/-- The stage-3 (writer) user message (line 265). -/
def writingMessage (user_input insights_content : String) : String :=
  "Transform these insights about " ++ user_input ++
  " into engaging newsletter content:\n\n" ++ insights_content

/-- The stage-4 (editor) user message (lines 283–286). -/
def editingMessage (user_input newsletter_draft : String) : String :=
  "Proofread and refine this newsletter draft about " ++ user_input ++
  ". Ensure all sources are properly cited and the content is engaging and informative:\n\n" ++
  newsletter_draft

/-- The duck-typed object a `BaseAgent.run` call returns: the three
attributes the orchestrator probes for (lines 232–239 and their copies),
the `success` flag a failed karo result carries, and the object's `str()`
rendering, used as the fallback. -/
structure AgentRunResult where
  response_message : Option String := none
  content : Option String := none
  response_content : Option String := none
  success : Bool := true
  asString : String := ""
  deriving Repr, DecidableEq

/-- The attribute-probing ladder (lines 232–239, repeated at 255–262,
273–280, 294–301): `response_message`, else `content`, else
`response_content`, else `str(result)`.  The `success` flag is never
consulted. -/
def extractContent (r : AgentRunResult) : String :=
  match r.response_message with
  | some m => m
  | none =>
    match r.content with
    | some c => c
    | none =>
      match r.response_content with
      | some c => c
      | none => r.asString

/-- The behaviour of one agent: the user message its history carries,
mapped to the result object its `run` call returns. -/
abbrev AgentRun := String → AgentRunResult

/-- The four pipeline stages, in source order. -/
inductive StageName where
  | research
  | insights
  | writer
  | editor
  deriving Repr, DecidableEq

/-- The dictionary `run_pipeline` returns (lines 303–308): exactly these
four keys. -/
structure PipelineResult where
  research : String
  insights : String
  draft : String
  final : String
  deriving Repr, DecidableEq

/-- A pipeline run, instrumented: the `(query, days_ago)` pairs passed to
`manual_search`, the stages whose agents were invoked, the user message
each invoked agent received, and the returned dictionary. -/
structure PipelineTrace where
  searches : List (String × Nat)
  stages : List StageName
  stageMessages : List String
  result : PipelineResult
  deriving Repr, DecidableEq

/-- Embedding of `NewsletterAgents.run_pipeline` (lines 184–308).  The
source body is straight-line: it issues the two `manual_search` calls,
builds `search_summary`, then invokes the four agents unconditionally in
order, probing each result object with `extractContent` and never reading
a `success` flag, and always returns the four-key dictionary. -/
def run_pipeline (toolRun : ToolCall)
    (researcher insights_expert writer editor : AgentRun)
    (user_input : String) : PipelineTrace :=
  let primaryCall := ("latest developments in " ++ user_input, 7)
  let primary_search_results := manual_search toolRun primaryCall.1 primaryCall.2
  let secondaryCall := ("impact of " ++ user_input, 14)
  let secondary_search_results := manual_search toolRun secondaryCall.1 secondaryCall.2
  let search_summary := buildSearchSummary primary_search_results secondary_search_results
  let research_message := researchMessage user_input search_summary
  let research_result := researcher research_message
  let research_content := extractContent research_result
  let insights_message := insightsMessage user_input research_content search_summary
  let insights_result := insights_expert insights_message
  let insights_content := extractContent insights_result
  let writing_message := writingMessage user_input insights_content
  let writing_result := writer writing_message
  let newsletter_draft := extractContent writing_result
  let editing_message := editingMessage user_input newsletter_draft
  let editing_result := editor editing_message
  let final_newsletter := extractContent editing_result
  { searches := [primaryCall, secondaryCall]
    stages := [StageName.research, StageName.insights, StageName.writer, StageName.editor]
    stageMessages := [research_message, insights_message, writing_message, editing_message]
    result :=
      { research := research_content
        insights := insights_content
        draft := newsletter_draft
        final := final_newsletter } }

/-! ## Agent configurations (main.py lines 35–161) -/

/-- The name of the search tool (`WebSearchTool.name`,
web_search_tool.py line 39). -/
def webSearchToolName : String := "web_search_tool"

/-- A `SystemPromptBuilder` as the four agent factories construct one. -/
structure SystemPromptBuilder where
  role_description : String
  core_instructions : String
  output_instructions : String
  deriving Repr, DecidableEq

/-- The parts of a `BaseAgentConfig` the spec's claims speak about.  The
`tools` field defaults to the empty list: a factory that passes no `tools`
argument configures its agent with no tool. -/
structure AgentConfig where
  prompt_builder : SystemPromptBuilder
  tools : List String := []
  max_tool_call_attempts : Option Nat := none
  tool_sys_msg : Option String := none
  deriving Repr, DecidableEq

/-- `_create_researcher_agent` (lines 35–75). -/
def researcherAgentConfig : AgentConfig :=
  { prompt_builder :=
      { role_description :=
          "You are an AI Researcher tracking the latest advancements and trends in AI, machine learning, and deep learning."
        core_instructions :=
          "Your PRIMARY task is to use the web_search_tool tool to find the latest information. " ++
          "THIS IS CRITICAL: You MUST make at least one call to the web_search_tool tool - it is your main job. " ++
          "Without using this tool, your response will be incomplete and outdated. " ++
          "After using the search tool, provide comprehensive research with reliable sources. " ++
          "Include exact search queries you used and summarize the most relevant findings."
        output_instructions :=
          "1. FIRST: Call the web_search_tool tool with an appropriate query.\n" ++
          "2. THEN: Organize your findings into clear sections with source links.\n" ++
          "3. ALWAYS: Highlight the potential impact of each development." }
    tools := [webSearchToolName]
    max_tool_call_attempts := some 5
    tool_sys_msg := some "You have access to the web_search_tool tool. You MUST use this tool to find information." }

/-- `_create_insights_expert_agent` (lines 77–113). -/
def insightsExpertAgentConfig : AgentConfig :=
  { prompt_builder :=
      { role_description :=
          "You are an AI Insights Expert with deep knowledge of the field of AI."
        core_instructions :=
          "Your PRIMARY task is to use the web_search_tool tool to verify and expand upon the research provided. " ++
          "THIS IS CRITICAL: You MUST make at least one call to the web_search_tool tool - it is your main job. " ++
          "Without using this tool, your insights will be incomplete. " ++
          "After searching, provide detailed analysis on the significance, applications, and future potential of each development."
        output_instructions :=
          "1. FIRST: Call the web_search_tool tool to verify and expand upon the research.\n" ++
          "2. THEN: Organize your analysis into clear sections.\n" ++
          "3. ALWAYS: Include potential industry implications and future directions." }
    tools := [webSearchToolName]
    max_tool_call_attempts := some 5
    tool_sys_msg := some "You have access to the search_and_contents tool. You MUST use this tool to find information." }

/-- `_create_writer_agent` (lines 115–137): no `tools` argument is passed. -/
def writerAgentConfig : AgentConfig :=
  { prompt_builder :=
      { role_description :=
          "You are a Newsletter Content Creator with expertise in writing about AI technologies."
        core_instructions :=
          "Transform insights from the AI Insights Expert into engaging and reader-friendly newsletter content about recent developments in AI, machine learning, and deep learning. " ++
          "Make complex topics accessible and engaging for a diverse audience. " ++
          "Transform the insights into reader-friendly content, highlighting the innovation, relevance, and potential impact of each development."
        output_instructions :=
          "Write in a professional yet engaging tone. Structure the content with clear headings and concise paragraphs. Keep the content aligned with the newsletter's goals." } }

/-- `_create_editor_agent` (lines 139–161): no `tools` argument is passed. -/
def editorAgentConfig : AgentConfig :=
  { prompt_builder :=
      { role_description :=
          "You are a meticulous Newsletter Editor for AI content."
        core_instructions :=
          "Proofread, refine, and structure the newsletter to ensure it is ready for publication. " ++
          "Maintain professional tone while ensuring content is accessible to the target audience. " ++
          "Ensure clarity, eliminate errors, enhance readability, and align the tone with the newsletter's vision. " ++
          "Focus on improving flow, highlighting key insights effectively, and ensuring the newsletter engages the audience."
        output_instructions :=
          "Include valid website URLs to reliable sources for the advancements discussed. Format the newsletter with proper headings, bullet points, and paragraph spacing. Ensure all technical terms are adequately explained for the target audience." } }

/-! ## Substring containment -/

/-- `pat` occurs contiguously inside `s`. -/
def strContains (s pat : String) : Prop :=
  ∃ pre post : List Char, s.data = pre ++ pat.data ++ post

theorem strContains_of_eq_append (pre post : String) (s pat : String)
    (h : s = pre ++ pat ++ post) : strContains s pat := by
  refine ⟨pre.data, post.data, ?_⟩
  subst h
  simp [String.data_append]

theorem strContains_append_left (s t pat : String)
    (h : strContains s pat) : strContains (s ++ t) pat := by
  obtain ⟨pre, post, hp⟩ := h
  exact ⟨pre, post ++ t.data, by simp [String.data_append, hp]⟩

theorem strContains_append_right (s t pat : String)
    (h : strContains t pat) : strContains (s ++ t) pat := by
  obtain ⟨pre, post, hp⟩ := h
  exact ⟨s.data ++ pre, post, by simp [String.data_append, hp]⟩

theorem strContains_refl (s : String) : strContains s s :=
  ⟨[], [], by simp⟩

/-! ## Small string lemmas -/

theorem pySlice_data (s : String) (n : Nat) : (pySlice s n).data = s.data.take n := rfl

theorem pySlice_length (s : String) (n : Nat) : (pySlice s n).length = min n s.length := by
  show (s.data.take n).length = min n s.length
  simp

theorem pySlice_of_le (s : String) (n : Nat) (h : s.length ≤ n) : pySlice s n = s := by
  apply String.ext
  show s.data.take n = s.data
  exact List.take_of_length_le h

theorem string_append_ne_empty (s t : String) (h : s ≠ "") : s ++ t ≠ "" := by
  intro heq
  apply h
  apply String.ext
  have hd : s.data ++ t.data = ([] : List Char) := by
    have := congrArg String.data heq
    simpa [String.data_append] using this
  simpa using (List.append_eq_nil.mp hd).1

theorem string_length_append (s t : String) : (s ++ t).length = s.length + t.length := by
  show (s ++ t).data.length = s.data.length + t.data.length
  simp [String.data_append]

/-! ## Claim C9 -/

/-- C9: every value returned by `WebSearchTool.run` satisfies the
invariant: on success the error message is absent, the results list is
present and `total_results_found` equals its length; on failure the error
message is a non-empty string and the results field is `None` — never both
a populated results list and an error message. -/
theorem C9_run_output_invariant (apiKey : Option String) (remote : ExaCall)
    (input : WebSearchInputSchema) :
    outputWellFormed (WebSearchTool.run apiKey remote input) := by
  unfold WebSearchTool.run WebSearchTool.runT
  by_cases hk : apiKeyMissing apiKey
  · simp only [hk, if_true]
    exact ⟨rfl, noApiKeyMessage, rfl, by decide⟩
  · simp only [hk, Bool.false_eq_true, if_false]
    cases remote with
    | error e =>
        exact ⟨rfl, "Error performing search: " ++ e, rfl,
          string_append_ne_empty _ _ (by decide)⟩
    | ok rs =>
        exact ⟨rfl, rs.map (formatExaResult input.max_preview_chars), rfl, rfl⟩

/-! ## Claim C5 -/

/-- C5: `WebSearchTool.run` never propagates an exception — the embedded
function is total in the `remote` oracle, and an exception raised by the
remote call (the `Except.error` case) yields a `success=false` dictionary
with a descriptive error message, as does a missing API credential; and
at most one remote search attempt is made per call, exactly one whenever
the credential check is passed (no retries). -/
theorem C5_run_soft_failure_one_attempt (apiKey : Option String) (remote : ExaCall)
    (input : WebSearchInputSchema) :
    (WebSearchTool.runT apiKey remote input).2 ≤ 1 ∧
    (apiKeyMissing apiKey = false → (WebSearchTool.runT apiKey remote input).2 = 1) ∧
    (apiKeyMissing apiKey = true →
      WebSearchTool.run apiKey remote input =
        { success := false
          error_message := some noApiKeyMessage
          results := none }) ∧
    (∀ e, remote = Except.error e → apiKeyMissing apiKey = false →
      WebSearchTool.run apiKey remote input =
        { success := false
          error_message := some ("Error performing search: " ++ e)
          results := none }) := by
  unfold WebSearchTool.run WebSearchTool.runT
  by_cases hk : apiKeyMissing apiKey
  · refine ⟨by simp [hk], by simp [hk], fun _ => by simp [hk], ?_⟩
    intro e he hfalse
    rw [hk] at hfalse
    exact absurd hfalse (by decide)
  · have hk' : apiKeyMissing apiKey = false := by
      exact Bool.not_eq_true _ ▸ Bool.of_not_eq_true hk
    cases remote with
    | error e =>
        exact ⟨by simp [hk'], fun _ => by simp [hk'], fun h => absurd h (by simp [hk']),
          fun e' he' _ => by
            rw [Except.error.injEq] at he'
            subst he'
            simp [hk']⟩
    | ok rs =>
        exact ⟨by simp [hk'], fun _ => by simp [hk'], fun h => absurd h (by simp [hk']),
          fun e' he' _ => by cases he'⟩

/-! ## Claim C4 -/

/-- C4 counterexample: the claim asserts that a result whose original text
has length at most `max_preview_chars` gets that text unchanged as its
`content_preview`; but for an original text `""` (length 0 ≤ 500) the
source's truthiness guard (`if hasattr(result, 'text') and result.text:`)
leaves `content_preview = None`, not the original text. -/
theorem C4_counterexample :
    (formatExaResult 500 { title := "t", url := "u", text := some "" }).content_preview
        = none ∧
    (formatExaResult 500 { title := "t", url := "u", text := some "" }).content_preview
        ≠ some "" := by
  constructor
  · rfl
  · intro h
    cases h

/-- C4 amended: for every result with a NON-EMPTY original text, the
preview is the text unchanged when its length is at most
`max_preview_chars` and the first `max_preview_chars` characters followed
by the ellipsis marker when it is strictly longer (so truncation occurs
exactly on the strictly-longer branch); every produced preview has length
at most `max_preview_chars + len(ellipsis_marker)`; a result with empty or
missing text gets no preview at all. -/
theorem C4_preview_truncation (t : String) (maxChars : Nat) :
    (t ≠ "" → t.length ≤ maxChars → makeContentPreview (some t) maxChars = some t) ∧
    (t ≠ "" → maxChars < t.length →
      makeContentPreview (some t) maxChars
        = some (pySlice t maxChars ++ ellipsisMarker)) ∧
    (∀ p, makeContentPreview (some t) maxChars = some p →
      p.length ≤ maxChars + ellipsisMarker.length) ∧
    makeContentPreview (some "") maxChars = none ∧
    makeContentPreview (none : Option String) maxChars = none := by
  refine ⟨?_, ?_, ?_, by simp [makeContentPreview], rfl⟩
  · intro hne hle
    simp only [makeContentPreview, truncatePreview, if_neg hne]
    rw [if_neg (by omega)]
  · intro hne hlt
    simp only [makeContentPreview, truncatePreview, if_neg hne]
    rw [if_pos hlt]
  · intro p hp
    by_cases hne : t = ""
    · subst hne
      simp [makeContentPreview] at hp
    · simp only [makeContentPreview, truncatePreview, if_neg hne] at hp
      by_cases hlt : maxChars < t.length
      · rw [if_pos hlt] at hp
        obtain rfl : p = pySlice t maxChars ++ ellipsisMarker := by
          exact (Option.some.injEq _ _ ▸ hp).symm ▸ rfl
        rw [string_length_append, pySlice_length]
        have : min maxChars t.length = maxChars := by omega
        omega
      · rw [if_neg hlt] at hp
        obtain rfl : p = t := by
          exact (Option.some.injEq _ _ ▸ hp).symm ▸ rfl
        omega

/-! ## Containment in the merged search context -/

theorem strContains_foldl (l : List String) (init x : String)
    (h : strContains init x ∨ x ∈ l) :
    strContains (l.foldl (fun r s => r ++ s) init) x := by
  induction l generalizing init with
  | nil =>
      simpa using h.resolve_right (by simp)
  | cons a t ih =>
      simp only [List.foldl_cons]
      apply ih
      rcases h with h | h
      · exact Or.inl (strContains_append_left _ _ _ h)
      · rcases List.mem_cons.mp h with rfl | h
        · exact Or.inl (strContains_append_right _ _ _ (strContains_refl _))
        · exact Or.inr h

theorem strContains_join_of_mem (l : List String) (x : String) (h : x ∈ l) :
    strContains (String.join l) x :=
  strContains_foldl l "" x (Or.inr h)

theorem renderSearchResponse_contains_block (resp : WebSearchOutputSchema)
    (p : Nat × WebSearchResult) (hp : p ∈ (resp.results.getD []).enum) :
    strContains (renderSearchResponse resp) (renderResultBlock p.1 p.2) := by
  unfold renderSearchResponse
  apply strContains_append_right
  apply strContains_join_of_mem
  unfold resultBlocks
  exact List.mem_map.mpr ⟨p, hp, rfl⟩

theorem buildSearchSummary_contains_primary_block
    (primary secondary : WebSearchOutputSchema) (hs : primary.success = true)
    (p : Nat × WebSearchResult) (hp : p ∈ (primary.results.getD []).enum) :
    strContains (buildSearchSummary primary secondary) (renderResultBlock p.1 p.2) := by
  have hbody := renderSearchResponse_contains_block primary p hp
  simp only [buildSearchSummary, hs, if_true]
  by_cases h2 : secondary.success
  · rw [if_pos h2]
    exact strContains_append_left _ _ _
      (strContains_append_left _ _ _ (strContains_append_right _ _ _ hbody))
  · rw [if_neg h2]
    exact strContains_append_right _ _ _ hbody

theorem buildSearchSummary_contains_secondary_block
    (primary secondary : WebSearchOutputSchema) (hs : secondary.success = true)
    (p : Nat × WebSearchResult) (hp : p ∈ (secondary.results.getD []).enum) :
    strContains (buildSearchSummary primary secondary) (renderResultBlock p.1 p.2) := by
  have hbody := renderSearchResponse_contains_block secondary p hp
  simp only [buildSearchSummary, hs, if_true]
  exact strContains_append_right _ _ _ hbody

/-! ## Claim C2 -/

/-- C2: every completed pipeline run returns a record with exactly the
four fields `research`, `insights`, `draft`, `final`, holding in order the
stage-1 text, the stage-2 text, the stage-3 (writer) text, and the
stage-4 (editor) text — `final` is the editor's probed output applied to
the editing message built from the writer's draft, not the draft itself. -/
theorem C2_result_is_four_stage_record (toolRun : ToolCall)
    (researcher insights_expert writer editor : AgentRun) (user_input : String) :
    (run_pipeline toolRun researcher insights_expert writer editor user_input).result =
      (let summary := buildSearchSummary
          (manual_search toolRun ("latest developments in " ++ user_input) 7)
          (manual_search toolRun ("impact of " ++ user_input) 14)
       let research_content := extractContent (researcher (researchMessage user_input summary))
       let insights_content :=
         extractContent (insights_expert (insightsMessage user_input research_content summary))
       let newsletter_draft := extractContent (writer (writingMessage user_input insights_content))
       let final_newsletter := extractContent (editor (editingMessage user_input newsletter_draft))
       { research := research_content
         insights := insights_content
         draft := newsletter_draft
         final := final_newsletter }) := rfl

/-! ## Claim C1 -/

/-- C1 counterexample: a concrete run whose stage-2 (insights) agent
returns a failed result (`success = false`) nonetheless invokes the writer
and editor stages and returns a complete four-field `PipelineResult`
embedding the failed stage's rendered text — contradicting the claim that
the orchestrator aborts the remaining stages and surfaces only the error
description. -/
theorem C1_counterexample :
    (((fun _ => { success := false, asString := "provider fault" } : AgentRun) "x").success
        = false) ∧
    (run_pipeline (fun _ => Except.error "network down")
        (fun _ => { response_message := some "R1" })
        (fun _ => { success := false, asString := "provider fault" })
        (fun _ => { response_message := some "D1" })
        (fun _ => { response_message := some "F1" })
        "AI").stages
      = [StageName.research, StageName.insights, StageName.writer, StageName.editor] ∧
    (run_pipeline (fun _ => Except.error "network down")
        (fun _ => { response_message := some "R1" })
        (fun _ => { success := false, asString := "provider fault" })
        (fun _ => { response_message := some "D1" })
        (fun _ => { response_message := some "F1" })
        "AI").result
      = { research := "R1", insights := "provider fault", draft := "D1", final := "F1" } :=
  ⟨rfl, rfl, rfl⟩

/-- C1 amended: `run_pipeline` contains no abort path: for every behaviour
of the search tool and of the four stage agents, all four stages are
invoked in order and a (complete) result record is always returned;
moreover the `success` flag of a stage result is never consulted — two
insights agents whose probed texts agree yield identical runs even if one
reports `success = false` everywhere. -/
theorem C1_no_abort_on_stage_failure (toolRun : ToolCall)
    (researcher ie1 ie2 writer editor : AgentRun) (user_input : String) :
    (run_pipeline toolRun researcher ie1 writer editor user_input).stages =
      [StageName.research, StageName.insights, StageName.writer, StageName.editor] ∧
    ((∀ m, extractContent (ie1 m) = extractContent (ie2 m)) →
      run_pipeline toolRun researcher ie1 writer editor user_input =
        run_pipeline toolRun researcher ie2 writer editor user_input) := by
  constructor
  · rfl
  · intro h
    simp only [run_pipeline, h]

/-! ## Claim C3 -/

/-- C3: every pipeline run issues exactly two searches before stage 1 —
"latest developments in {topic}" with a 7-day window, then
"impact of {topic}" with a 14-day window; the stage-1 message embeds the
one merged supplementary-context block built from the two responses; that
block contains one rendered block per result of each successful response;
and each rendered block carries the result's index, title, url and
publish date (and, when present, its preview). -/
theorem C3_two_searches_merged_context (toolRun : ToolCall)
    (researcher insights_expert writer editor : AgentRun) (user_input : String) :
    (run_pipeline toolRun researcher insights_expert writer editor user_input).searches =
      [("latest developments in " ++ user_input, 7), ("impact of " ++ user_input, 14)] ∧
    (run_pipeline toolRun researcher insights_expert writer editor user_input).stageMessages.head?
      = some (researchMessage user_input (buildSearchSummary
          (manual_search toolRun ("latest developments in " ++ user_input) 7)
          (manual_search toolRun ("impact of " ++ user_input) 14))) ∧
    (∀ summary, strContains (researchMessage user_input summary) summary) ∧
    (∀ primary secondary : WebSearchOutputSchema, primary.success = true →
      ∀ p ∈ (primary.results.getD []).enum,
        strContains (buildSearchSummary primary secondary) (renderResultBlock p.1 p.2)) ∧
    (∀ primary secondary : WebSearchOutputSchema, secondary.success = true →
      ∀ p ∈ (secondary.results.getD []).enum,
        strContains (buildSearchSummary primary secondary) (renderResultBlock p.1 p.2)) ∧
    (∀ (i : Nat) (r : WebSearchResult),
      strContains (renderResultBlock i r)
        ("[Result " ++ toString (i + 1) ++ "]\n" ++ "Title: " ++ r.title ++ "\n" ++
         "URL: " ++ r.url ++ "\n" ++ "Published: " ++ pyStr r.published_date ++ "\n") ∧
      (pyTruthy r.content_preview = true →
        strContains (renderResultBlock i r)
          ("Preview: " ++ pySlice (r.content_preview.getD "") 300 ++ "...\n\n"))) := by
  refine ⟨rfl, rfl, ?_, ?_, ?_, ?_⟩
  · intro summary
    unfold researchMessage
    exact strContains_append_left _ _ _ (strContains_append_left _ _ _
      (strContains_append_left _ _ _ (strContains_append_left _ _ _
        (strContains_append_right _ _ _ (strContains_refl _)))))
  · intro primary secondary hs q hq
    exact buildSearchSummary_contains_primary_block primary secondary hs q hq
  · intro primary secondary hs q hq
    exact buildSearchSummary_contains_secondary_block primary secondary hs q hq
  · intro i r
    constructor
    · unfold renderResultBlock
      exact strContains_append_left _ _ _ (strContains_refl _)
    · intro hp
      unfold renderResultBlock
      rw [hp]
      simp only [if_true]
      exact strContains_append_right _ _ _ (strContains_refl _)

theorem strContains_iff_isInfixOf (s pat : String) :
    strContains s pat ↔ pat.data <:+: s.data := by
  constructor
  · rintro ⟨pre, post, h⟩
    exact ⟨pre, post, h.symm⟩
  · rintro ⟨pre, post, h⟩
    exact ⟨pre, post, h.symm⟩

/-! ## Claim C6 -/

/-- C6: the researcher and insights-expert agents are configured with the
web-search tool (and both the agents' core instructions and the stage
messages the orchestrator sends instruct that the tool may be called
again), while the writer and editor agents are configured with no tool. -/
theorem C6_agent_tool_configuration :
    researcherAgentConfig.tools = [webSearchToolName] ∧
    insightsExpertAgentConfig.tools = [webSearchToolName] ∧
    writerAgentConfig.tools = [] ∧
    editorAgentConfig.tools = [] ∧
    strContains researcherAgentConfig.prompt_builder.core_instructions webSearchToolName ∧
    strContains insightsExpertAgentConfig.prompt_builder.core_instructions webSearchToolName ∧
    (∀ topic summary, strContains (researchMessage topic summary)
      "If you need more specific information, use the search_and_contents tool with a specific query.") ∧
    (∀ topic research summary, strContains (insightsMessage topic research summary)
      "If you need any specific information, use the search_and_contents tool with a specific query.") := by
  refine ⟨rfl, rfl, rfl, rfl, ?_, ?_, ?_, ?_⟩
  · exact (strContains_iff_isInfixOf _ _).mpr (by decide)
  · exact (strContains_iff_isInfixOf _ _).mpr (by decide)
  · intro topic summary
    unfold researchMessage
    exact strContains_append_right _ _ _ (strContains_refl _)
  · intro topic research summary
    unfold insightsMessage
    exact strContains_append_right _ _ _ (strContains_refl _)

/-! ## Claim C7 -/

/-- C7: the stage-2 (insights) directive contains the topic, the full
stage-1 research text, and only the first 1000 characters of the merged
search-context block: the message depends on the block only through its
1000-character slice, and the pipeline's second stage message is exactly
this directive. -/
theorem C7_insights_directive_bounded_context
    (user_input research_content search_summary other : String) :
    (pySlice search_summary 1000 = pySlice other 1000 →
      insightsMessage user_input research_content search_summary =
        insightsMessage user_input research_content other) ∧
    strContains (insightsMessage user_input research_content search_summary) user_input ∧
    strContains (insightsMessage user_input research_content search_summary) research_content ∧
    strContains (insightsMessage user_input research_content search_summary)
      (pySlice search_summary 1000) ∧
    (∀ (toolRun : ToolCall) (researcher insights_expert writer editor : AgentRun),
      (run_pipeline toolRun researcher insights_expert writer editor user_input).stageMessages =
        (let summary := buildSearchSummary
            (manual_search toolRun ("latest developments in " ++ user_input) 7)
            (manual_search toolRun ("impact of " ++ user_input) 14)
         let research := extractContent (researcher (researchMessage user_input summary))
         let insights :=
           extractContent (insights_expert (insightsMessage user_input research summary))
         let draft := extractContent (writer (writingMessage user_input insights))
         [researchMessage user_input summary,
          insightsMessage user_input research summary,
          writingMessage user_input insights,
          editingMessage user_input draft])) := by
  refine ⟨?_, ?_, ?_, ?_, fun _ _ _ _ _ => rfl⟩
  · intro h
    unfold insightsMessage
    rw [h]
  · unfold insightsMessage
    exact strContains_append_left _ _ _ (strContains_append_left _ _ _
      (strContains_append_left _ _ _ (strContains_append_left _ _ _
        (strContains_append_left _ _ _ (strContains_append_left _ _ _
          (strContains_append_left _ _ _ (strContains_append_left _ _ _
            (strContains_append_right _ _ _ (strContains_refl _)))))))))
  · unfold insightsMessage
    exact strContains_append_left _ _ _ (strContains_append_left _ _ _
      (strContains_append_left _ _ _ (strContains_append_left _ _ _
        (strContains_append_left _ _ _
          (strContains_append_right _ _ _ (strContains_refl _))))))
  · unfold insightsMessage
    exact strContains_append_left _ _ _ (strContains_append_left _ _ _
      (strContains_append_right _ _ _ (strContains_refl _)))

/-! ## Claim C8 -/

/-- C8: for a successful search response folded into the merged context,
the number of rendered result blocks equals
`min(max_results, total_found)` whenever the provider honoured the result
cap (`total_found`, the response's reported total, equals the number of
returned results, which is at most `max_results` for a well-formed
response); a response with `success=false` contributes zero blocks to the
merged context. -/
theorem C8_rendered_block_count (apiKey : Option String) (rs : List ExaResult)
    (input : WebSearchInputSchema) (p s : WebSearchOutputSchema) :
    (apiKeyMissing apiKey = false → rs.length ≤ input.max_results →
      ((WebSearchTool.run apiKey (Except.ok rs) input).success = true ∧
       (resultBlocks (WebSearchTool.run apiKey (Except.ok rs) input)).length =
         min input.max_results
           ((WebSearchTool.run apiKey (Except.ok rs) input).total_results_found.getD 0))) ∧
    (p.success = false →
      buildSearchSummary p s =
        (if s.success then "SEARCH RESULTS:\n\n" ++ "\n" ++ renderSearchResponse s
         else "SEARCH RESULTS:\n\n")) ∧
    (s.success = false →
      buildSearchSummary p s =
        (if p.success then "SEARCH RESULTS:\n\n" ++ renderSearchResponse p
         else "SEARCH RESULTS:\n\n")) := by
  refine ⟨?_, ?_, ?_⟩
  · intro hk hle
    unfold WebSearchTool.run WebSearchTool.runT
    rw [hk]
    simp only [Bool.false_eq_true, if_false]
    refine ⟨by trivial, ?_⟩
    simp only [resultBlocks, Option.getD_some, List.length_map, List.enum_length]
    rw [Nat.min_eq_right (by simpa using hle)]
  · intro hp
    simp only [buildSearchSummary, hp, Bool.false_eq_true, if_false]
  · intro hs
    simp only [buildSearchSummary, hs, Bool.false_eq_true, if_false]

/-! ## Claim C10 -/

/-- C10: a failure of either initial search never halts or fails the
pipeline run — for every tool behaviour (including one that always raises)
all four stages are still executed; `manual_search` converts a raised
exception or a `success=false` return into a soft failure dictionary; and
a failed search contributes nothing to the merged supplementary-context
block. -/
theorem C10_search_failure_never_halts (toolRun : ToolCall)
    (researcher insights_expert writer editor : AgentRun) (user_input : String)
    (p s : WebSearchOutputSchema) (e q : String) (d : Nat) :
    (run_pipeline toolRun researcher insights_expert writer editor user_input).stages =
      [StageName.research, StageName.insights, StageName.writer, StageName.editor] ∧
    manual_search (fun _ => Except.error e) q d =
      { success := false, error_message := some e } ∧
    (∀ o : WebSearchOutputSchema, o.success = false →
      manual_search (fun _ => Except.ok o) q d =
        { success := false, error_message := some (o.error_message.getD "Unknown error") }) ∧
    (p.success = false → s.success = false →
      buildSearchSummary p s = "SEARCH RESULTS:\n\n") ∧
    (p.success = false → s.success = true →
      buildSearchSummary p s = "SEARCH RESULTS:\n\n" ++ "\n" ++ renderSearchResponse s) ∧
    (p.success = true → s.success = false →
      buildSearchSummary p s = "SEARCH RESULTS:\n\n" ++ renderSearchResponse p) := by
  refine ⟨rfl, rfl, ?_, ?_, ?_, ?_⟩
  · intro o ho
    simp only [manual_search, ho, Bool.false_eq_true, if_false]
  · intro hp hs
    simp only [buildSearchSummary, hp, hs, Bool.false_eq_true, if_false]
  · intro hp hs
    simp only [buildSearchSummary, hp, hs, Bool.false_eq_true, if_false, if_true]
  · intro hp hs
    simp only [buildSearchSummary, hp, hs, Bool.false_eq_true, if_false, if_true]
